import Mathlib

/-!
# PC-Monitor host-link protocol: verification of the specification claims

Shallow embedding of the protocol/concurrency core of the PC-Monitor
firmware (ESP32, C sources under `main/`): the CRC32 routine, the image
upload session state machine (`screensaver_images.c` /
`ui/screensaver_mgr.c`), the telemetry parser and line framer
(`drivers/usb_serial_comm.c`, `main_lvgl.c`), the command dispatcher,
and the staleness / screensaver state machine (`main_lvgl.c`).

Machine integers are modelled as `Nat` with explicit masking where
overflow matters; C pointers that may be `NULL` are modelled as
`Option`; the allocator and the filesystem are modelled as boolean
oracles passed to the functions that call them.
-/

namespace PCMonitor

/-! ## CRC32 (`crc32_update` in `screensaver_images.c:58-68` and
`ui/screensaver_mgr.c:78-88`; both revisions are textually identical)

```c
static uint32_t crc32_update(uint32_t crc, const uint8_t *data, size_t len)
{
    crc = ~crc;
    while (len--) {
        crc ^= *data++;
        for (int i = 0; i < 8; i++) {
            crc = (crc >> 1) ^ (0xEDB88320 & ~((crc & 1) - 1));
        }
    }
    return ~crc;
}
```
-/

/-- C bitwise complement on a `uint32_t` value (`~x`). For `x < 2^32`
this is exactly the C operation; on `Nat` it flips the low 32 bits. -/
def compl32 (x : Nat) : Nat := x ^^^ 0xFFFFFFFF

/-- One iteration of the inner `for` loop of `crc32_update`:
`crc = (crc >> 1) ^ (0xEDB88320 & ~((crc & 1) - 1))`.
The subtraction `(crc & 1) - 1` is `uint32_t` arithmetic, hence
`((crc & 1) + 2^32 - 1) % 2^32`. -/
def crc32_step (crc : Nat) : Nat :=
  (crc >>> 1) ^^^ (0xEDB88320 &&& compl32 (((crc &&& 1) + 0xFFFFFFFF) % 0x100000000))

/-- The body of the `while (len--)` loop: XOR one byte into the running
value and run the 8-bit inner loop. -/
def crc32_byte (crc b : Nat) : Nat := crc32_step^[8] (crc ^^^ b)

/-- `crc32_update(crc, data, len)`: complement in, fold the bytes,
complement out. -/
def crc32_update (crc : Nat) (data : List Nat) : Nat :=
  compl32 ((data.foldl crc32_byte (compl32 crc)))

/-- Modelled from the spec: one step of the standard reflected CRC32
with polynomial `0xEDB88320` (shift right; XOR the polynomial in iff
the LSB was set). -/
def crc32_spec_step (crc : Nat) : Nat :=
  if crc &&& 1 = 1 then (crc >>> 1) ^^^ 0xEDB88320 else crc >>> 1

/-- Modelled from the spec: one byte of the standard reflected CRC32. -/
def crc32_spec_byte (crc b : Nat) : Nat := crc32_spec_step^[8] (crc ^^^ b)

/-- Modelled from the spec: the one-shot standard CRC32 of a whole
buffer — initial value complemented (`~0 = 0xFFFFFFFF`), final value
complemented. -/
def crc32_oneshot (data : List Nat) : Nat :=
  (data.foldl crc32_spec_byte 0xFFFFFFFF) ^^^ 0xFFFFFFFF

/-! ## Image upload session state machine
(`screensaver_images.c:298-548` and `ui/screensaver_mgr.c:300-510`; the
two revisions implement identical logic.)

Constants from `screensaver_images.h`. -/

def SS_IMG_COUNT : Nat := 4

def SCARAB_IMG_HEADER_SIZE : Nat := 16

/-- `SCARAB_IMG_HEADER_SIZE + SCARAB_RGB565A8_SIZE = 16 + 240*240*3`. -/
def SCARAB_IMG_MAX_SIZE : Nat := 16 + 240 * 240 * 3

/-- `0x53434152`, "SCAR" little-endian. -/
def SCARAB_IMG_MAGIC : Nat := 0x53434152

/-- `img_upload_state_t`. -/
inductive ImgState where
  | idle
  | receiving
  | complete
  | uploadError
deriving DecidableEq, Repr

/-- `img_upload_ctx_t`. `buffer` is a `uint8_t *` that may be `NULL`
(`none`); `some bytes` models an allocated region of `bytes.length`
bytes. `malloc` leaves contents uninitialised in C; the model fills the
fresh region with zeros — the protocol never reads an unwritten byte on
any path that reaches a read (IMG_END requires `received_size ==
expected_size` first). -/
structure UploadCtx where
  state : ImgState
  slot : Nat
  expected_size : Nat
  received_size : Nat
  buffer : Option (List Nat)
  crc32 : Nat
deriving DecidableEq, Repr

/-- `upload_ctx` after `ss_images_init` (`memset(&upload_ctx, 0, ...)`). -/
def initialUploadCtx : UploadCtx :=
  { state := .idle, slot := 0, expected_size := 0, received_size := 0,
    buffer := none, crc32 := 0 }

/-- Responses the upload handlers emit over `send_response`. -/
inductive ImgResp where
  | okBegin
  | okData (received : Nat)
  | okComplete (slot : Nat)
  | okAbort
  | errParse
  | errSlot
  | errSize
  | errNomem
  | errNobegin
  | errOffset (received : Nat)
  | errHexlen
  | errOverflow
  | errIncomplete (received : Nat)
  | errCrc (crc : Nat)
  | errMagic
  | errSave
  | errLoad
deriving DecidableEq, Repr

/-- Result of one upload-protocol handler call: the new session
context, the response sent, and how many times `heap_caps_free` was
called on the session's scratch buffer during the call. -/
structure ImgStepResult where
  ctx : UploadCtx
  resp : ImgResp
  frees : Nat
deriving DecidableEq, Repr

/-- `handle_img_begin` (`screensaver_images.c:302-345`).
`parsed` is the result of `sscanf(line, "IMG_BEGIN:%d:%u", &slot,
&size)`: `none` when it does not return 2, otherwise the parsed
(`int`) slot and (`uint32_t`) size. `allocOk` is the allocator oracle:
whether `heap_caps_malloc(size, ...)` returns non-NULL. -/
def handle_img_begin (ctx : UploadCtx) (parsed : Option (Int × Nat))
    (allocOk : Bool) : ImgStepResult :=
  match parsed with
  | none => ⟨ctx, .errParse, 0⟩
  | some (slot, size) =>
    if slot < 0 ∨ slot ≥ (SS_IMG_COUNT : Int) then ⟨ctx, .errSlot, 0⟩
    else if size < SCARAB_IMG_HEADER_SIZE ∨ size > SCARAB_IMG_MAX_SIZE then
      ⟨ctx, .errSize, 0⟩
    else
      -- "Cancel any existing upload": free the old buffer if any.
      let frees := if ctx.buffer.isSome then 1 else 0
      if allocOk then
        ⟨{ state := .receiving, slot := slot.toNat, expected_size := size,
           received_size := 0, buffer := some (List.replicate size 0),
           crc32 := 0 }, .okBegin, frees⟩
      else
        -- malloc returned NULL: only `upload_ctx.buffer` is assigned
        -- (to NULL); state, sizes and CRC are left as they were.
        ⟨{ ctx with buffer := none }, .errNomem, frees⟩

/-- Value of `strtoul(byte_str, NULL, 16)` for a two-character string,
cast to `uint8_t`. The protocol sends plain hexadecimal digit pairs;
whitespace/sign/`0x`-prefix forms of `strtoul` do not occur in a token
that already passed the even-length check and are modelled as their
greedy-digit-parse value. -/
def hexDigitVal (c : Nat) : Option Nat :=
  if 48 ≤ c ∧ c ≤ 57 then some (c - 48)
  else if 97 ≤ c ∧ c ≤ 102 then some (c - 87)
  else if 65 ≤ c ∧ c ≤ 70 then some (c - 55)
  else none

def strtoul16_pair (c1 c2 : Nat) : Nat :=
  match hexDigitVal c1 with
  | none => 0
  | some v1 =>
    match hexDigitVal c2 with
    | none => v1
    | some v2 => 16 * v1 + v2

/-- The hex-to-binary loop of `handle_img_data`: byte `i` is decoded
from characters `2i` and `2i+1`. -/
def hexDecode : List Nat → List Nat
  | c1 :: c2 :: rest => strtoul16_pair c1 c2 :: hexDecode rest
  | _ => []

/-- `memcpy`-style write of `data` into buffer `b` at byte offset
`off` (the decode loop writes `dest = buffer + received_size`). -/
def writeBytesAt (b : List Nat) (off : Nat) (data : List Nat) : List Nat :=
  b.take off ++ data ++ b.drop (off + data.length)

/-- `handle_img_data` (`screensaver_images.c:351-414`).
`parsed` models the `sscanf`/`strchr` stage: `none` when either fails
(`IMG_ERR:PARSE`), otherwise the offset and the character codes of the
hex payload after the second colon. -/
def handle_img_data (ctx : UploadCtx) (parsed : Option (Nat × List Nat)) :
    ImgStepResult :=
  if ctx.state ≠ .receiving then ⟨ctx, .errNobegin, 0⟩
  else match parsed with
  | none => ⟨ctx, .errParse, 0⟩
  | some (offset, hex) =>
    if offset ≠ ctx.received_size then ⟨ctx, .errOffset ctx.received_size, 0⟩
    else if hex.length % 2 ≠ 0 then ⟨ctx, .errHexlen, 0⟩
    else
      let data_len := hex.length / 2
      if ctx.received_size + data_len > ctx.expected_size then
        ⟨ctx, .errOverflow, 0⟩
      else
        let decoded := hexDecode hex
        ⟨{ ctx with
             buffer := ctx.buffer.map (fun b => writeBytesAt b ctx.received_size decoded),
             crc32 := crc32_update ctx.crc32 decoded,
             received_size := ctx.received_size + data_len },
         .okData (ctx.received_size + data_len), 0⟩

/-- The first four bytes of the buffer read as a little-endian
`uint32_t` (the `header->magic` access of `handle_img_end`). -/
def readLE32 (b : List Nat) : Nat :=
  b.getD 0 0 + 256 * (b.getD 1 0 + 256 * (b.getD 2 0 + 256 * (b.getD 3 0)))

/-- `handle_img_end` (`screensaver_images.c:420-487`).
`parsedCrc` is the `sscanf(line, "IMG_END:%x", ...)` result. `saveOk`
is the filesystem oracle for `ss_image_save` (its own magic/size
checks are implied by the checks `handle_img_end` already made);
`loadOk` for `ss_image_load`. On success the buffer is freed and state
passes through `IMG_UPLOAD_COMPLETE` before the final
`upload_ctx.state = IMG_UPLOAD_IDLE`; the model records the state at
return. Reading the magic of a `NULL` buffer would be undefined
behaviour in C and is modelled as reading an empty buffer. -/
def handle_img_end (ctx : UploadCtx) (parsedCrc : Option Nat)
    (saveOk loadOk : Bool) : ImgStepResult :=
  if ctx.state ≠ .receiving then ⟨ctx, .errNobegin, 0⟩
  else match parsedCrc with
  | none => ⟨ctx, .errParse, 0⟩
  | some expected_crc =>
    if ctx.received_size ≠ ctx.expected_size then
      ⟨ctx, .errIncomplete ctx.received_size, 0⟩
    else if ctx.crc32 ≠ expected_crc then
      ⟨{ ctx with buffer := none, state := .idle }, .errCrc ctx.crc32, 1⟩
    else if readLE32 (ctx.buffer.getD []) ≠ SCARAB_IMG_MAGIC then
      ⟨{ ctx with buffer := none, state := .idle }, .errMagic, 1⟩
    else if ¬saveOk then
      ⟨{ ctx with buffer := none, state := .idle }, .errSave, 1⟩
    else
      ⟨{ ctx with buffer := none, state := .idle },
       if loadOk then .okComplete ctx.slot else .errLoad, 1⟩

/-- `handle_img_abort` (`screensaver_images.c:492-504`). -/
def handle_img_abort (ctx : UploadCtx) : ImgStepResult :=
  let frees := if ctx.buffer.isSome then 1 else 0
  ⟨{ ctx with buffer := none, state := .idle, received_size := 0 },
   .okAbort, frees⟩

/-! ## Telemetry parser
(`parse_pc_data`, `drivers/usb_serial_comm.c:105-186`; the revision in
`main_lvgl.c:443-527` is the same staging/threshold logic but takes the
stats mutex with `portMAX_DELAY` instead of a bounded timeout.)

Lines, tokens and strings are lists of byte values (C `char`s). C
`float` fields are modelled as exact rationals: the protocol carries
short decimal literals and no claim depends on binary rounding. -/

/-- Byte values of a string literal (ASCII). -/
def strBytes (s : String) : List Nat := s.data.map Char.toNat

/-- `isspace` in the C locale: space, `\t`, `\n`, `\v`, `\f`, `\r`. -/
def isCSpace (c : Nat) : Bool := c == 32 || (9 ≤ c && c ≤ 13)

/-- ASCII decimal digit. -/
def isDigitCode (c : Nat) : Bool := 48 ≤ c && c ≤ 57

/-- Value of a digit string (most significant first). -/
def digitsVal (l : List Nat) : Nat := l.foldl (fun a c => 10 * a + (c - 48)) 0

/-- C `atoi`: skip whitespace, optional sign, leading digits. -/
def c_atoi (l : List Nat) : Int :=
  let l1 := l.dropWhile isCSpace
  match l1 with
  | 45 :: r => -(Int.ofNat (digitsVal (r.takeWhile isDigitCode)))
  | 43 :: r => Int.ofNat (digitsVal (r.takeWhile isDigitCode))
  | _ => Int.ofNat (digitsVal (l1.takeWhile isDigitCode))

/-- The `(int16_t)` cast applied to the `atoi` result (two's complement
wrap-around). -/
def toInt16 (x : Int) : Int :=
  let m := x % 65536
  if m ≥ 32768 then m - 65536 else m

/-- Absolute part of `atof`: digits, optional `.`, digits. (The
protocol never sends exponent notation; it is not modelled.) -/
def c_atofAbs (l : List Nat) : Rat :=
  let ip := l.takeWhile isDigitCode
  let r2 := l.dropWhile isDigitCode
  let fp := match r2 with
    | 46 :: r => r.takeWhile isDigitCode
    | _ => []
  (digitsVal ip : Rat) + (digitsVal fp : Rat) / (10 : Rat) ^ fp.length

/-- C `atof`: skip whitespace, optional sign, decimal literal;
no conversion gives `0.0`. -/
def c_atof (l : List Nat) : Rat :=
  let l1 := l.dropWhile isCSpace
  match l1 with
  | 45 :: r => -(c_atofAbs r)
  | 43 :: r => c_atofAbs r
  | _ => c_atofAbs l1

/-- One `%f` conversion of `sscanf`: skip whitespace, optional sign,
digits with optional fraction; `none` on matching failure, otherwise
the value and the unconsumed rest. -/
def scanFloat (l : List Nat) : Option (Rat × List Nat) :=
  let l1 := l.dropWhile isCSpace
  let sgn : Bool × List Nat := match l1 with
    | 45 :: r => (true, r)
    | 43 :: r => (false, r)
    | _ => (false, l1)
  let ip := sgn.2.takeWhile isDigitCode
  let r2 := sgn.2.dropWhile isDigitCode
  let fr : List Nat × List Nat := match r2 with
    | 46 :: r => (r.takeWhile isDigitCode, r.dropWhile isDigitCode)
    | _ => ([], r2)
  if ip = [] ∧ fr.1 = [] then none
  else
    let v : Rat := (digitsVal ip : Rat) + (digitsVal fr.1 : Rat) / (10 : Rat) ^ fr.1.length
    some (if sgn.1 then -v else v, fr.2)

/-- `sscanf(s, "%f/%f", &a, &b)`: which of the two targets were
assigned, and with what (an unassigned target keeps its old value). -/
def scanTwoFloats (l : List Nat) : Option Rat × Option Rat :=
  match scanFloat l with
  | none => (none, none)
  | some (a, rest) =>
    match rest with
    | 47 :: r2 =>
      match scanFloat r2 with
      | none => (some a, none)
      | some (b, _) => (some a, some b)
    | _ => (some a, none)

/-- `pc_stats_t` (`core/system_types.h`). `int16_t` percent fields are
`Int`, `float` fields are `Rat`, the two `char[16]` strings are byte
lists (at most 15 bytes are ever stored). -/
structure PcStats where
  cpu_percent : Int
  cpu_temp : Rat
  gpu_percent : Int
  gpu_temp : Rat
  gpu_vram_used : Rat
  gpu_vram_total : Rat
  ram_used_gb : Rat
  ram_total_gb : Rat
  net_type : List Nat
  net_speed : List Nat
  net_down_mbps : Rat
  net_up_mbps : Rat
deriving DecidableEq, Repr

/-- `pc_stats_t temp_stats = {0};` -/
def zeroStats : PcStats :=
  { cpu_percent := 0, cpu_temp := 0, gpu_percent := 0, gpu_temp := 0,
    gpu_vram_used := 0, gpu_vram_total := 0, ram_used_gb := 0,
    ram_total_gb := 0, net_type := [], net_speed := [],
    net_down_mbps := 0, net_up_mbps := 0 }

/-- `strncmp(token, key, strlen(key)) == 0`: `key` is a byte-wise
leading part of `token`. -/
def keyMatch : List Nat → List Nat → Bool
  | [], _ => true
  | _ :: _, [] => false
  | p :: ps, c :: cs => p == c && keyMatch ps cs

/-- `"CPU:"`. -/
def CPU_key : List Nat := [67, 80, 85, 58]

/-- `"CPUT:"`. -/
def CPUT_key : List Nat := [67, 80, 85, 84, 58]

/-- `"GPU:"`. -/
def GPU_key : List Nat := [71, 80, 85, 58]

/-- `"GPUT:"`. -/
def GPUT_key : List Nat := [71, 80, 85, 84, 58]

/-- `"VRAM:"`. -/
def VRAM_key : List Nat := [86, 82, 65, 77, 58]

/-- `"RAM:"`. -/
def RAM_key : List Nat := [82, 65, 77, 58]

/-- `"NET:"`. -/
def NET_key : List Nat := [78, 69, 84, 58]

/-- `"SPEED:"`. -/
def SPEED_key : List Nat := [83, 80, 69, 69, 68, 58]

/-- `"DOWN:"`. -/
def DOWN_key : List Nat := [68, 79, 87, 78, 58]

/-- `"UP:"`. -/
def UP_key : List Nat := [85, 80, 58]

/-- The body of the token loop of `parse_pc_data`: stage one token into
the temporary frame and count it if its key is recognized. -/
def stageToken (acc : PcStats × Nat) (tok : List Nat) : PcStats × Nat :=
  let s := acc.1
  let n := acc.2
  if keyMatch CPU_key tok then
    ({ s with cpu_percent := toInt16 (c_atoi (tok.drop 4)) }, n + 1)
  else if keyMatch CPUT_key tok then
    ({ s with cpu_temp := c_atof (tok.drop 5) }, n + 1)
  else if keyMatch GPU_key tok then
    ({ s with gpu_percent := toInt16 (c_atoi (tok.drop 4)) }, n + 1)
  else if keyMatch GPUT_key tok then
    ({ s with gpu_temp := c_atof (tok.drop 5) }, n + 1)
  else if keyMatch VRAM_key tok then
    let uv := scanTwoFloats (tok.drop 5)
    ({ s with gpu_vram_used := uv.1.getD s.gpu_vram_used,
              gpu_vram_total := uv.2.getD s.gpu_vram_total }, n + 1)
  else if keyMatch RAM_key tok then
    let uv := scanTwoFloats (tok.drop 4)
    let total := uv.2.getD s.ram_total_gb
    ({ s with ram_used_gb := uv.1.getD s.ram_used_gb,
              ram_total_gb := if total < (1 : Rat) / 10 then 16 else total }, n + 1)
  else if keyMatch NET_key tok then
    ({ s with net_type := (tok.drop 4).take 15 }, n + 1)
  else if keyMatch SPEED_key tok then
    ({ s with net_speed := (tok.drop 6).take 15 }, n + 1)
  else if keyMatch DOWN_key tok then
    ({ s with net_down_mbps := c_atof (tok.drop 5) }, n + 1)
  else if keyMatch UP_key tok then
    ({ s with net_up_mbps := c_atof (tok.drop 3) }, n + 1)
  else acc

/-- `strtok(buffer, ",")` loop: comma-separated tokens, empty tokens
skipped (consecutive, leading or trailing commas produce none). -/
def strtokComma (line : List Nat) : List (List Nat) :=
  (line.splitOn 44).filter (· ≠ [])

/-- The staging loop of `parse_pc_data`: the staged frame (starting
from the zero-initialised temporary) and the number of recognized
fields. -/
def stageTokens (toks : List (List Nat)) : PcStats × Nat :=
  toks.foldl stageToken (zeroStats, 0)

/-- The shared state guarded by the stats mutex: the live
`pc_stats_t` and the staleness clock `last_data_ms`. -/
structure SharedTelemetry where
  stats : PcStats
  last_data_ms : Nat
deriving DecidableEq, Repr

/-- Number of recognized fields required before a frame is committed
(`if (fields_parsed >= 5)`). -/
def MIN_FIELDS : Nat := 5

/-- `parse_pc_data` (`drivers/usb_serial_comm.c:105-186`): tokenize,
stage into a zeroed temporary, and commit the whole staged frame plus a
fresh staleness timestamp only when at least `MIN_FIELDS` recognized
fields were found and the stats mutex was obtained within its bounded
timeout (`lockOk`); otherwise the shared state is left untouched.
`now` is `esp_timer_get_time() / 1000` at commit time. -/
def parse_pc_data (line : List Nat) (sh : SharedTelemetry) (now : Nat)
    (lockOk : Bool) : SharedTelemetry :=
  if line.length < 5 then sh
  else if (stageTokens (strtokComma line)).2 ≥ MIN_FIELDS then
    if lockOk then
      { stats := (stageTokens (strtokComma line)).1, last_data_ms := now }
    else sh
  else sh

/-- The staged frame decoded from a line. -/
def stagedOf (line : List Nat) : PcStats := (stageTokens (strtokComma line)).1

/-- The number of recognized fields found in a line. -/
def fieldsOf (line : List Nat) : Nat := (stageTokens (strtokComma line)).2

/-- The tokens of a line whose key matches `key`, in order. -/
def keyToks (key : List Nat) (line : List Nat) : List (List Nat) :=
  (strtokComma line).filter (fun t => keyMatch key t)

/-! ### Lock-wait constants (claim C7)

The wait argument passed to `xSemaphoreTake` at each stats-mutex
acquisition site on the ingestion path. -/

/-- A FreeRTOS semaphore wait bound: a bounded number of milliseconds
(`pdMS_TO_TICKS(ms)`) or the unbounded `portMAX_DELAY`. -/
inductive SemWait where
  | ticks (ms : Nat)
  | maxDelay
deriving DecidableEq, Repr

/-- Whether a wait is bounded. -/
def SemWait.isBounded : SemWait → Bool
  | .ticks _ => true
  | .maxDelay => false

/-- `#define STATS_MUTEX_TIMEOUT_MS 100` (`usb_serial_comm.c:21`). -/
def STATS_MUTEX_TIMEOUT_MS : Nat := 100

/-- The stats-mutex wait of the telemetry commit in
`drivers/usb_serial_comm.c:172`:
`xSemaphoreTake(s_stats_mutex, pdMS_TO_TICKS(STATS_MUTEX_TIMEOUT_MS))`. -/
def usb_parse_stats_wait : SemWait := .ticks STATS_MUTEX_TIMEOUT_MS

/-- The stats-mutex wait of the telemetry commit in
`main_lvgl.c:519`: `xSemaphoreTake(stats_mutex, portMAX_DELAY)`. -/
def lvgl_parse_stats_wait : SemWait := .maxDelay

/-- Helper for stating last-one-wins field decoding: the value after
repeatedly overwriting `v0` with `f` of each list element in order. -/
def overwriteFold (f : List Nat → α → α) (v0 : α) (l : List (List Nat)) : α :=
  l.foldl (fun v t => f t v) v0

/-! ## Line framer
(`usb_rx_task`, `drivers/usb_serial_comm.c:209-281`; the inline copy in
`main_lvgl.c:719-790` is byte-for-byte the same framing logic with the
same `LINE_BUFFER_SIZE` of 2048.) -/

/-- `#define USB_LINE_BUFFER_SIZE 2048` / `#define LINE_BUFFER_SIZE
2048`. A byte is appended only while `line_pos < SIZE - 1`, so the
usable line capacity is `SIZE - 1` bytes. -/
def USB_LINE_BUFFER_SIZE : Nat := 2048

/-- The framer state held across `usb_serial_jtag_read_bytes` calls:
the accumulated bytes (`line_buf[0..line_pos)`) and `is_discarding`. -/
structure LineFramer where
  buf : List Nat
  discarding : Bool
deriving DecidableEq, Repr

/-- State at task start (`line_pos = 0`, `is_discarding = false`). -/
def framerInit : LineFramer := ⟨[], false⟩

/-- One byte of the RX loop body (`size` is the line buffer size):
returns the new state and the completed line handed to the dispatcher,
if any. Delimiters are `'\n'` (10) and `'\r'` (13). -/
def framerStep (size : Nat) (st : LineFramer) (c : Nat) : LineFramer × Option (List Nat) :=
  if c == 10 || c == 13 then
    if st.discarding then (⟨[], false⟩, none)
    else if st.buf.length > 0 then (⟨[], false⟩, some st.buf)
    else (st, none)
  else if st.discarding then (st, none)
  else if st.buf.length < size - 1 then (⟨st.buf ++ [c], st.discarding⟩, none)
  else (⟨st.buf, true⟩, none)

/-- Feed one read chunk byte by byte, collecting the emitted lines in
order. -/
def framerFeed (size : Nat) (st : LineFramer) : List Nat → LineFramer × List (List Nat)
  | [] => (st, [])
  | c :: cs =>
    let r := framerStep size st c
    let rest := framerFeed size r.1 cs
    (rest.1, (match r.2 with | some l => [l] | none => []) ++ rest.2)

/-- Feed a sequence of read chunks (successive
`usb_serial_jtag_read_bytes` results). -/
def framerFeedChunks (size : Nat) (st : LineFramer) :
    List (List Nat) → LineFramer × List (List Nat)
  | [] => (st, [])
  | ch :: chs =>
    let r := framerFeed size st ch
    let rest := framerFeedChunks size r.1 chs
    (rest.1, r.2 ++ rest.2)

/-- A stream of well-formed delimiter-terminated lines: each block is a
line followed by its (nonempty) run of delimiter bytes. -/
def mkStream (blocks : List (List Nat × List Nat)) : List Nat :=
  (blocks.map (fun b => b.1 ++ b.2)).flatten

/-! ## Command dispatcher
(`usb_rx_task` dispatch chain, `drivers/usb_serial_comm.c:239-251`, and
`usb_serial_register_handler`, lines 69-74.) -/

/-- `"WHO_ARE_YOU?"`. -/
def WHO_ARE_YOU : List Nat := strBytes "WHO_ARE_YOU?"

/-- Which of the three stages consumed a completed line. -/
inductive LineConsumer where
  | handshake
  | handler (i : Nat)
  | telemetry
deriving DecidableEq, Repr

/-- The registered-handler loop: index of the first handler that
claims the line (`for (h = 0; h < count && !handled; h++)`); handlers
after the first claimant are not called. Handler side effects are
outside this model; a handler is its claim predicate. -/
def firstClaiming (handlers : List (List Nat → Bool)) (line : List Nat) : Option Nat :=
  match handlers with
  | [] => none
  | h :: hs => if h line then some 0 else (firstClaiming hs line).map (· + 1)

/-- The dispatch chain for one completed line: built-in handshake
first (exact `strcmp` match, answered with the identity string
carrying the identity hash), then the registered handlers in order,
then the telemetry parser as fallback. Returns the consumer and the
response written for the handshake. -/
def dispatch_line (handlers : List (List Nat → Bool)) (hash : List Nat)
    (line : List Nat) : LineConsumer × Option (List Nat) :=
  if line = WHO_ARE_YOU then
    (.handshake, some (strBytes "SCARAB_CLIENT_OK|H:" ++ hash ++ [10]))
  else
    match firstClaiming handlers line with
    | some i => (.handler i, none)
    | none => (.telemetry, none)

/-- `#define MAX_CMD_HANDLERS 8`. -/
def MAX_CMD_HANDLERS : Nat := 8

/-- `usb_serial_register_handler`: append while there is room (the
`handler != NULL` guard is implicit — a modelled handler is a total
function). -/
def usb_serial_register_handler (hs : List (List Nat → Bool))
    (h : List Nat → Bool) : List (List Nat → Bool) :=
  if hs.length < MAX_CMD_HANDLERS then hs ++ [h] else hs

/-! ## Staleness / screensaver state machine
(`display_update_task`, `main_lvgl.c:795-857`, constants
`main_lvgl.c:55-57`.) -/

def SCREENSAVER_TIMEOUT_MS : Nat := 30000

def STALE_DATA_THRESHOLD_MS : Nat := 2000

def DISPLAY_UPDATE_MS : Nat := 100

/-- Modelled from the spec: the UI mode derived from the time since
the last valid telemetry. -/
inductive UiMode where
  | live
  | stale
  | screensaver
deriving DecidableEq, Repr

/-- Modelled from the spec: `elapsed > screensaver_timeout →
Screensaver; else elapsed > stale_timeout → Stale; else Live`. -/
def computeUiMode (elapsed : Nat) : UiMode :=
  if elapsed > SCREENSAVER_TIMEOUT_MS then .screensaver
  else if elapsed > STALE_DATA_THRESHOLD_MS then .stale
  else .live

/-- Position of a mode in the Live → Stale → Screensaver progression. -/
def modeRank : UiMode → Nat
  | .live => 0
  | .stale => 1
  | .screensaver => 2

/-- `uint32_t` wrap-around subtraction `now - last_data_ms`
(both operands are `uint32_t` millisecond timestamps). -/
def elapsed32 (now last : Nat) : Nat :=
  (now % 0x100000000 + 0x100000000 - last % 0x100000000) % 0x100000000

/-- Observable outcome of one `display_update_task` iteration:
`is_screensaver_active` after the tick, whether
`show_screensavers` (`some true`) or `hide_screensavers`
(`some false`) was called, and whether red dots were shown
(`none` when the LVGL mutex was not obtained and nothing ran). -/
structure DisplayTickResult where
  active : Bool
  ssAction : Option Bool
  redDots : Option Bool
deriving DecidableEq, Repr

/-- One iteration of `display_update_task` (`main_lvgl.c:802-852`):
recompute staleness booleans from `now − last_data_ms`, and — only
under the LVGL mutex (bounded 50 ms wait, `lockOk`) — perform the
edge-triggered screensaver transition and the red-dot update. -/
def display_tick (lockOk : Bool) (now last : Nat) (active : Bool) : DisplayTickResult :=
  let elapsed := elapsed32 now last
  let data_is_stale := decide (elapsed > STALE_DATA_THRESHOLD_MS)
  let should_screensave := decide (elapsed > SCREENSAVER_TIMEOUT_MS)
  if lockOk then
    let ssAction : Option Bool :=
      if should_screensave && !active then some true
      else if !should_screensave && active then some false
      else none
    let active' :=
      if should_screensave && !active then true
      else if !should_screensave && active then false
      else active
    { active := active', ssAction := ssAction,
      redDots := some (data_is_stale && !active') }
  else
    { active := active, ssAction := none, redDots := none }

/-! ## Slot image lookup
(`ss_image_get_dsc`, `screensaver_images.c:202-213` and
`ui/screensaver_mgr.c:210-219`.) -/

/-- One entry of `loaded_images[]`: the `loaded` flag and the PSRAM
pixel-data pointer (`none` = `NULL`). -/
structure SsLoadedImage where
  loaded : Bool
  data : Option (List Nat)

/-- A non-`NULL` `const lv_image_dsc_t *` that `ss_image_get_dsc` can
return: the address of `loaded_images[slot].lvgl_dsc`, or the address
of the compiled fallback `fallback_images[slot]` (addresses of
statically allocated objects, never `NULL`). -/
inductive SsDscPtr where
  | customDsc (slot : Fin 4)
  | fallbackDsc (slot : Fin 4)
deriving DecidableEq, Repr

/-- `ss_image_get_dsc`: `NULL` for an out-of-range slot; otherwise the
custom descriptor when `loaded_images[slot].loaded &&
loaded_images[slot].data`, else the compiled fallback. -/
def ss_image_get_dsc (table : Fin 4 → SsLoadedImage) (slot : Nat) : Option SsDscPtr :=
  if h : slot < SS_IMG_COUNT then
    if (table ⟨slot, h⟩).loaded && (table ⟨slot, h⟩).data.isSome then
      some (.customDsc ⟨slot, h⟩)
    else
      some (.fallbackDsc ⟨slot, h⟩)
  else none

/-! ## Theorems -/

theorem compl32_compl32 (x : Nat) : compl32 (compl32 x) = x := by
  simp [compl32, Nat.xor_assoc]

theorem crc32_step_eq_spec (crc : Nat) : crc32_step crc = crc32_spec_step crc := by
  have h1 : crc &&& 1 = crc % 2 := Nat.and_one_is_mod crc
  rcases Nat.mod_two_eq_zero_or_one crc with h | h
  · have : crc &&& 1 = 0 := by rw [h1, h]
    simp [crc32_step, crc32_spec_step, this, compl32]
  · have : crc &&& 1 = 1 := by rw [h1, h]
    simp only [crc32_step, crc32_spec_step, this, compl32]
    norm_num
    decide

theorem crc32_byte_eq_spec (crc b : Nat) : crc32_byte crc b = crc32_spec_byte crc b := by
  have h : crc32_step = crc32_spec_step := funext crc32_step_eq_spec
  simp [crc32_byte, crc32_spec_byte, h]

theorem foldl_crc32_byte_eq_spec (c : Nat) (data : List Nat) :
    data.foldl crc32_byte c = data.foldl crc32_spec_byte c := by
  induction data generalizing c with
  | nil => rfl
  | cons b bs ih => simp [List.foldl_cons, crc32_byte_eq_spec, ih]

/-- Folding `crc32_update` over a list of chunks, starting from `c`,
equals a single `crc32_update` call on the concatenation. -/
theorem foldl_crc32_update (c : Nat) (chunks : List (List Nat)) :
    chunks.foldl crc32_update c = crc32_update c chunks.flatten := by
  induction chunks generalizing c with
  | nil => simp [crc32_update, compl32_compl32]
  | cons d ds ih =>
      simp only [List.foldl_cons, List.flatten_cons, ih, crc32_update, compl32_compl32,
        List.foldl_append]

/-- C3: for every partition of a buffer into consecutive chunks, folding
the source's `crc32_update` over the chunks starting from a running
value of `0` (as `handle_img_begin` initialises `upload_ctx.crc32 = 0`)
gives bit-for-bit the one-shot standard reflected-0xEDB88320 CRC32
(initial value complemented, final value complemented) of the whole
buffer: the incremental per-chunk update is a homomorphism matching the
standard one-shot CRC32. -/
theorem crc32_update_chunked_eq_oneshot (chunks : List (List Nat)) :
    chunks.foldl crc32_update 0 = crc32_oneshot chunks.flatten := by
  rw [foldl_crc32_update]
  simp [crc32_update, crc32_oneshot, compl32, foldl_crc32_byte_eq_spec]

theorem hexDecode_length : ∀ l : List Nat, (hexDecode l).length = l.length / 2
  | [] => rfl
  | [_] => by simp [hexDecode]
  | _ :: _ :: rest => by
      simp only [hexDecode, List.length_cons, hexDecode_length rest]
      omega

theorem keyMatch_true_elim {p : Nat} {ps tok : List Nat}
    (h : keyMatch (p :: ps) tok = true) :
    ∃ tl, tok = p :: tl ∧ keyMatch ps tl = true := by
  cases tok with
  | nil => simp [keyMatch] at h
  | cons c cs =>
      simp only [keyMatch, Bool.and_eq_true, beq_iff_eq] at h
      exact ⟨cs, by rw [h.1], h.2⟩

theorem overwriteFold_const {α : Type} (f : List Nat → α) (v0 : α) (l : List (List Nat)) :
    overwriteFold (fun t _ => f t) v0 l
      = (match l.getLast? with | some t => f t | none => v0) := by
  induction l generalizing v0 with
  | nil => rfl
  | cons t ts ih =>
      cases ts with
      | nil => rfl
      | cons u us => simpa [overwriteFold, List.foldl_cons] using ih (f t)

/-- Generic last-writer characterisation of one staged field: if
`stageToken` maps a key-matching token to `dec tok` of the previous
staged value and leaves the field alone otherwise, then after the whole
loop the field is the fold of `dec` over exactly the matching tokens. -/
theorem stageFold_proj {α : Type} (proj : PcStats → α) (key : List Nat)
    (dec : List Nat → α → α)
    (hm : ∀ (p : PcStats × Nat) tok, keyMatch key tok = true →
        proj (stageToken p tok).1 = dec tok (proj p.1))
    (hn : ∀ (p : PcStats × Nat) tok, keyMatch key tok = false →
        proj (stageToken p tok).1 = proj p.1) :
    ∀ (toks : List (List Nat)) (p : PcStats × Nat),
      proj (toks.foldl stageToken p).1
        = overwriteFold dec (proj p.1) (toks.filter (fun t => keyMatch key t)) := by
  intro toks
  induction toks with
  | nil => intro p; rfl
  | cons t ts ih =>
      intro p
      simp only [List.foldl_cons, List.filter_cons]
      cases hk : keyMatch key t with
      | true =>
          simp only [if_pos]
          rw [ih (stageToken p t)]
          simp [overwriteFold, hm p t hk]
      | false =>
          simp only [Bool.false_eq_true, if_neg, ite_false]
          rw [ih (stageToken p t)]
          rw [hn p t hk]

theorem stageToken_cpu_percent_match (p : PcStats × Nat) (tok : List Nat)
    (h : keyMatch CPU_key tok = true) :
    (stageToken p tok).1.cpu_percent = toInt16 (c_atoi (tok.drop 4)) := by
  simp only [CPU_key] at h
  obtain ⟨t1, rfl, h1⟩ := keyMatch_true_elim h
  obtain ⟨t2, rfl, h2⟩ := keyMatch_true_elim h1
  obtain ⟨t3, rfl, h3⟩ := keyMatch_true_elim h2
  obtain ⟨t4, rfl, h4⟩ := keyMatch_true_elim h3
  simp [stageToken, keyMatch, CPU_key, CPUT_key, GPU_key, GPUT_key, VRAM_key, RAM_key, NET_key, SPEED_key, DOWN_key, UP_key]

theorem stageToken_cpu_percent_skip (p : PcStats × Nat) (tok : List Nat)
    (h : keyMatch CPU_key tok = false) :
    (stageToken p tok).1.cpu_percent = p.1.cpu_percent := by
  simp only [stageToken]
  simp only [apply_ite (fun q : PcStats × Nat => q.1.cpu_percent)]
  simp [h, ite_self]

theorem stageToken_cpu_temp_match (p : PcStats × Nat) (tok : List Nat)
    (h : keyMatch CPUT_key tok = true) :
    (stageToken p tok).1.cpu_temp = c_atof (tok.drop 5) := by
  simp only [CPUT_key] at h
  obtain ⟨t1, rfl, h1⟩ := keyMatch_true_elim h
  obtain ⟨t2, rfl, h2⟩ := keyMatch_true_elim h1
  obtain ⟨t3, rfl, h3⟩ := keyMatch_true_elim h2
  obtain ⟨t4, rfl, h4⟩ := keyMatch_true_elim h3
  obtain ⟨t5, rfl, h5⟩ := keyMatch_true_elim h4
  simp [stageToken, keyMatch, CPU_key, CPUT_key, GPU_key, GPUT_key, VRAM_key, RAM_key, NET_key, SPEED_key, DOWN_key, UP_key]

theorem stageToken_cpu_temp_skip (p : PcStats × Nat) (tok : List Nat)
    (h : keyMatch CPUT_key tok = false) :
    (stageToken p tok).1.cpu_temp = p.1.cpu_temp := by
  simp only [stageToken]
  simp only [apply_ite (fun q : PcStats × Nat => q.1.cpu_temp)]
  simp [h, ite_self]

theorem stageToken_gpu_percent_match (p : PcStats × Nat) (tok : List Nat)
    (h : keyMatch GPU_key tok = true) :
    (stageToken p tok).1.gpu_percent = toInt16 (c_atoi (tok.drop 4)) := by
  simp only [GPU_key] at h
  obtain ⟨t1, rfl, h1⟩ := keyMatch_true_elim h
  obtain ⟨t2, rfl, h2⟩ := keyMatch_true_elim h1
  obtain ⟨t3, rfl, h3⟩ := keyMatch_true_elim h2
  obtain ⟨t4, rfl, h4⟩ := keyMatch_true_elim h3
  simp [stageToken, keyMatch, CPU_key, CPUT_key, GPU_key, GPUT_key, VRAM_key, RAM_key, NET_key, SPEED_key, DOWN_key, UP_key]

theorem stageToken_gpu_percent_skip (p : PcStats × Nat) (tok : List Nat)
    (h : keyMatch GPU_key tok = false) :
    (stageToken p tok).1.gpu_percent = p.1.gpu_percent := by
  simp only [stageToken]
  simp only [apply_ite (fun q : PcStats × Nat => q.1.gpu_percent)]
  simp [h, ite_self]

theorem stageToken_gpu_temp_match (p : PcStats × Nat) (tok : List Nat)
    (h : keyMatch GPUT_key tok = true) :
    (stageToken p tok).1.gpu_temp = c_atof (tok.drop 5) := by
  simp only [GPUT_key] at h
  obtain ⟨t1, rfl, h1⟩ := keyMatch_true_elim h
  obtain ⟨t2, rfl, h2⟩ := keyMatch_true_elim h1
  obtain ⟨t3, rfl, h3⟩ := keyMatch_true_elim h2
  obtain ⟨t4, rfl, h4⟩ := keyMatch_true_elim h3
  obtain ⟨t5, rfl, h5⟩ := keyMatch_true_elim h4
  simp [stageToken, keyMatch, CPU_key, CPUT_key, GPU_key, GPUT_key, VRAM_key, RAM_key, NET_key, SPEED_key, DOWN_key, UP_key]

theorem stageToken_gpu_temp_skip (p : PcStats × Nat) (tok : List Nat)
    (h : keyMatch GPUT_key tok = false) :
    (stageToken p tok).1.gpu_temp = p.1.gpu_temp := by
  simp only [stageToken]
  simp only [apply_ite (fun q : PcStats × Nat => q.1.gpu_temp)]
  simp [h, ite_self]

theorem stageToken_gpu_vram_used_match (p : PcStats × Nat) (tok : List Nat)
    (h : keyMatch VRAM_key tok = true) :
    (stageToken p tok).1.gpu_vram_used = ((scanTwoFloats (tok.drop 5)).1).getD p.1.gpu_vram_used := by
  simp only [VRAM_key] at h
  obtain ⟨t1, rfl, h1⟩ := keyMatch_true_elim h
  obtain ⟨t2, rfl, h2⟩ := keyMatch_true_elim h1
  obtain ⟨t3, rfl, h3⟩ := keyMatch_true_elim h2
  obtain ⟨t4, rfl, h4⟩ := keyMatch_true_elim h3
  obtain ⟨t5, rfl, h5⟩ := keyMatch_true_elim h4
  simp [stageToken, keyMatch, CPU_key, CPUT_key, GPU_key, GPUT_key, VRAM_key, RAM_key, NET_key, SPEED_key, DOWN_key, UP_key]

theorem stageToken_gpu_vram_used_skip (p : PcStats × Nat) (tok : List Nat)
    (h : keyMatch VRAM_key tok = false) :
    (stageToken p tok).1.gpu_vram_used = p.1.gpu_vram_used := by
  simp only [stageToken]
  simp only [apply_ite (fun q : PcStats × Nat => q.1.gpu_vram_used)]
  simp [h, ite_self]

theorem stageToken_gpu_vram_total_match (p : PcStats × Nat) (tok : List Nat)
    (h : keyMatch VRAM_key tok = true) :
    (stageToken p tok).1.gpu_vram_total = ((scanTwoFloats (tok.drop 5)).2).getD p.1.gpu_vram_total := by
  simp only [VRAM_key] at h
  obtain ⟨t1, rfl, h1⟩ := keyMatch_true_elim h
  obtain ⟨t2, rfl, h2⟩ := keyMatch_true_elim h1
  obtain ⟨t3, rfl, h3⟩ := keyMatch_true_elim h2
  obtain ⟨t4, rfl, h4⟩ := keyMatch_true_elim h3
  obtain ⟨t5, rfl, h5⟩ := keyMatch_true_elim h4
  simp [stageToken, keyMatch, CPU_key, CPUT_key, GPU_key, GPUT_key, VRAM_key, RAM_key, NET_key, SPEED_key, DOWN_key, UP_key]

theorem stageToken_gpu_vram_total_skip (p : PcStats × Nat) (tok : List Nat)
    (h : keyMatch VRAM_key tok = false) :
    (stageToken p tok).1.gpu_vram_total = p.1.gpu_vram_total := by
  simp only [stageToken]
  simp only [apply_ite (fun q : PcStats × Nat => q.1.gpu_vram_total)]
  simp [h, ite_self]

theorem stageToken_ram_used_gb_match (p : PcStats × Nat) (tok : List Nat)
    (h : keyMatch RAM_key tok = true) :
    (stageToken p tok).1.ram_used_gb = ((scanTwoFloats (tok.drop 4)).1).getD p.1.ram_used_gb := by
  simp only [RAM_key] at h
  obtain ⟨t1, rfl, h1⟩ := keyMatch_true_elim h
  obtain ⟨t2, rfl, h2⟩ := keyMatch_true_elim h1
  obtain ⟨t3, rfl, h3⟩ := keyMatch_true_elim h2
  obtain ⟨t4, rfl, h4⟩ := keyMatch_true_elim h3
  simp [stageToken, keyMatch, CPU_key, CPUT_key, GPU_key, GPUT_key, VRAM_key, RAM_key, NET_key, SPEED_key, DOWN_key, UP_key]

theorem stageToken_ram_used_gb_skip (p : PcStats × Nat) (tok : List Nat)
    (h : keyMatch RAM_key tok = false) :
    (stageToken p tok).1.ram_used_gb = p.1.ram_used_gb := by
  simp only [stageToken]
  simp only [apply_ite (fun q : PcStats × Nat => q.1.ram_used_gb)]
  simp [h, ite_self]

theorem stageToken_ram_total_gb_match (p : PcStats × Nat) (tok : List Nat)
    (h : keyMatch RAM_key tok = true) :
    (stageToken p tok).1.ram_total_gb = (if ((scanTwoFloats (tok.drop 4)).2).getD p.1.ram_total_gb < (1 : Rat) / 10 then 16
       else ((scanTwoFloats (tok.drop 4)).2).getD p.1.ram_total_gb) := by
  simp only [RAM_key] at h
  obtain ⟨t1, rfl, h1⟩ := keyMatch_true_elim h
  obtain ⟨t2, rfl, h2⟩ := keyMatch_true_elim h1
  obtain ⟨t3, rfl, h3⟩ := keyMatch_true_elim h2
  obtain ⟨t4, rfl, h4⟩ := keyMatch_true_elim h3
  simp [stageToken, keyMatch, CPU_key, CPUT_key, GPU_key, GPUT_key, VRAM_key, RAM_key, NET_key, SPEED_key, DOWN_key, UP_key]

theorem stageToken_ram_total_gb_skip (p : PcStats × Nat) (tok : List Nat)
    (h : keyMatch RAM_key tok = false) :
    (stageToken p tok).1.ram_total_gb = p.1.ram_total_gb := by
  simp only [stageToken]
  simp only [apply_ite (fun q : PcStats × Nat => q.1.ram_total_gb)]
  simp [h, ite_self]

theorem stageToken_net_type_match (p : PcStats × Nat) (tok : List Nat)
    (h : keyMatch NET_key tok = true) :
    (stageToken p tok).1.net_type = (tok.drop 4).take 15 := by
  simp only [NET_key] at h
  obtain ⟨t1, rfl, h1⟩ := keyMatch_true_elim h
  obtain ⟨t2, rfl, h2⟩ := keyMatch_true_elim h1
  obtain ⟨t3, rfl, h3⟩ := keyMatch_true_elim h2
  obtain ⟨t4, rfl, h4⟩ := keyMatch_true_elim h3
  simp [stageToken, keyMatch, CPU_key, CPUT_key, GPU_key, GPUT_key, VRAM_key, RAM_key, NET_key, SPEED_key, DOWN_key, UP_key]

theorem stageToken_net_type_skip (p : PcStats × Nat) (tok : List Nat)
    (h : keyMatch NET_key tok = false) :
    (stageToken p tok).1.net_type = p.1.net_type := by
  simp only [stageToken]
  simp only [apply_ite (fun q : PcStats × Nat => q.1.net_type)]
  simp [h, ite_self]

theorem stageToken_net_speed_match (p : PcStats × Nat) (tok : List Nat)
    (h : keyMatch SPEED_key tok = true) :
    (stageToken p tok).1.net_speed = (tok.drop 6).take 15 := by
  simp only [SPEED_key] at h
  obtain ⟨t1, rfl, h1⟩ := keyMatch_true_elim h
  obtain ⟨t2, rfl, h2⟩ := keyMatch_true_elim h1
  obtain ⟨t3, rfl, h3⟩ := keyMatch_true_elim h2
  obtain ⟨t4, rfl, h4⟩ := keyMatch_true_elim h3
  obtain ⟨t5, rfl, h5⟩ := keyMatch_true_elim h4
  obtain ⟨t6, rfl, h6⟩ := keyMatch_true_elim h5
  simp [stageToken, keyMatch, CPU_key, CPUT_key, GPU_key, GPUT_key, VRAM_key, RAM_key, NET_key, SPEED_key, DOWN_key, UP_key]

theorem stageToken_net_speed_skip (p : PcStats × Nat) (tok : List Nat)
    (h : keyMatch SPEED_key tok = false) :
    (stageToken p tok).1.net_speed = p.1.net_speed := by
  simp only [stageToken]
  simp only [apply_ite (fun q : PcStats × Nat => q.1.net_speed)]
  simp [h, ite_self]

theorem stageToken_net_down_mbps_match (p : PcStats × Nat) (tok : List Nat)
    (h : keyMatch DOWN_key tok = true) :
    (stageToken p tok).1.net_down_mbps = c_atof (tok.drop 5) := by
  simp only [DOWN_key] at h
  obtain ⟨t1, rfl, h1⟩ := keyMatch_true_elim h
  obtain ⟨t2, rfl, h2⟩ := keyMatch_true_elim h1
  obtain ⟨t3, rfl, h3⟩ := keyMatch_true_elim h2
  obtain ⟨t4, rfl, h4⟩ := keyMatch_true_elim h3
  obtain ⟨t5, rfl, h5⟩ := keyMatch_true_elim h4
  simp [stageToken, keyMatch, CPU_key, CPUT_key, GPU_key, GPUT_key, VRAM_key, RAM_key, NET_key, SPEED_key, DOWN_key, UP_key]

theorem stageToken_net_down_mbps_skip (p : PcStats × Nat) (tok : List Nat)
    (h : keyMatch DOWN_key tok = false) :
    (stageToken p tok).1.net_down_mbps = p.1.net_down_mbps := by
  simp only [stageToken]
  simp only [apply_ite (fun q : PcStats × Nat => q.1.net_down_mbps)]
  simp [h, ite_self]

theorem stageToken_net_up_mbps_match (p : PcStats × Nat) (tok : List Nat)
    (h : keyMatch UP_key tok = true) :
    (stageToken p tok).1.net_up_mbps = c_atof (tok.drop 3) := by
  simp only [UP_key] at h
  obtain ⟨t1, rfl, h1⟩ := keyMatch_true_elim h
  obtain ⟨t2, rfl, h2⟩ := keyMatch_true_elim h1
  obtain ⟨t3, rfl, h3⟩ := keyMatch_true_elim h2
  simp [stageToken, keyMatch, CPU_key, CPUT_key, GPU_key, GPUT_key, VRAM_key, RAM_key, NET_key, SPEED_key, DOWN_key, UP_key]

theorem stageToken_net_up_mbps_skip (p : PcStats × Nat) (tok : List Nat)
    (h : keyMatch UP_key tok = false) :
    (stageToken p tok).1.net_up_mbps = p.1.net_up_mbps := by
  simp only [stageToken]
  simp only [apply_ite (fun q : PcStats × Nat => q.1.net_up_mbps)]
  simp [h, ite_self]

theorem staged_cpu_percent (toks : List (List Nat)) :
    (stageTokens toks).1.cpu_percent
      = overwriteFold (fun t _ => toInt16 (c_atoi (t.drop 4))) zeroStats.cpu_percent
          (toks.filter (fun t => keyMatch CPU_key t)) := by
  exact stageFold_proj (fun s => s.cpu_percent) CPU_key (fun t _ => toInt16 (c_atoi (t.drop 4)))
    (fun p tok h => stageToken_cpu_percent_match p tok h)
    (fun p tok h => stageToken_cpu_percent_skip p tok h) toks (zeroStats, 0)

theorem staged_cpu_temp (toks : List (List Nat)) :
    (stageTokens toks).1.cpu_temp
      = overwriteFold (fun t _ => c_atof (t.drop 5)) zeroStats.cpu_temp
          (toks.filter (fun t => keyMatch CPUT_key t)) := by
  exact stageFold_proj (fun s => s.cpu_temp) CPUT_key (fun t _ => c_atof (t.drop 5))
    (fun p tok h => stageToken_cpu_temp_match p tok h)
    (fun p tok h => stageToken_cpu_temp_skip p tok h) toks (zeroStats, 0)

theorem staged_gpu_percent (toks : List (List Nat)) :
    (stageTokens toks).1.gpu_percent
      = overwriteFold (fun t _ => toInt16 (c_atoi (t.drop 4))) zeroStats.gpu_percent
          (toks.filter (fun t => keyMatch GPU_key t)) := by
  exact stageFold_proj (fun s => s.gpu_percent) GPU_key (fun t _ => toInt16 (c_atoi (t.drop 4)))
    (fun p tok h => stageToken_gpu_percent_match p tok h)
    (fun p tok h => stageToken_gpu_percent_skip p tok h) toks (zeroStats, 0)

theorem staged_gpu_temp (toks : List (List Nat)) :
    (stageTokens toks).1.gpu_temp
      = overwriteFold (fun t _ => c_atof (t.drop 5)) zeroStats.gpu_temp
          (toks.filter (fun t => keyMatch GPUT_key t)) := by
  exact stageFold_proj (fun s => s.gpu_temp) GPUT_key (fun t _ => c_atof (t.drop 5))
    (fun p tok h => stageToken_gpu_temp_match p tok h)
    (fun p tok h => stageToken_gpu_temp_skip p tok h) toks (zeroStats, 0)

theorem staged_gpu_vram_used (toks : List (List Nat)) :
    (stageTokens toks).1.gpu_vram_used
      = overwriteFold (fun t v => ((scanTwoFloats (t.drop 5)).1).getD v) zeroStats.gpu_vram_used
          (toks.filter (fun t => keyMatch VRAM_key t)) := by
  exact stageFold_proj (fun s => s.gpu_vram_used) VRAM_key (fun t v => ((scanTwoFloats (t.drop 5)).1).getD v)
    (fun p tok h => stageToken_gpu_vram_used_match p tok h)
    (fun p tok h => stageToken_gpu_vram_used_skip p tok h) toks (zeroStats, 0)

theorem staged_gpu_vram_total (toks : List (List Nat)) :
    (stageTokens toks).1.gpu_vram_total
      = overwriteFold (fun t v => ((scanTwoFloats (t.drop 5)).2).getD v) zeroStats.gpu_vram_total
          (toks.filter (fun t => keyMatch VRAM_key t)) := by
  exact stageFold_proj (fun s => s.gpu_vram_total) VRAM_key (fun t v => ((scanTwoFloats (t.drop 5)).2).getD v)
    (fun p tok h => stageToken_gpu_vram_total_match p tok h)
    (fun p tok h => stageToken_gpu_vram_total_skip p tok h) toks (zeroStats, 0)

theorem staged_ram_used_gb (toks : List (List Nat)) :
    (stageTokens toks).1.ram_used_gb
      = overwriteFold (fun t v => ((scanTwoFloats (t.drop 4)).1).getD v) zeroStats.ram_used_gb
          (toks.filter (fun t => keyMatch RAM_key t)) := by
  exact stageFold_proj (fun s => s.ram_used_gb) RAM_key (fun t v => ((scanTwoFloats (t.drop 4)).1).getD v)
    (fun p tok h => stageToken_ram_used_gb_match p tok h)
    (fun p tok h => stageToken_ram_used_gb_skip p tok h) toks (zeroStats, 0)

theorem staged_ram_total_gb (toks : List (List Nat)) :
    (stageTokens toks).1.ram_total_gb
      = overwriteFold (fun t v => (if ((scanTwoFloats (t.drop 4)).2).getD v < (1 : Rat) / 10 then 16
       else ((scanTwoFloats (t.drop 4)).2).getD v)) zeroStats.ram_total_gb
          (toks.filter (fun t => keyMatch RAM_key t)) := by
  exact stageFold_proj (fun s => s.ram_total_gb) RAM_key (fun t v => (if ((scanTwoFloats (t.drop 4)).2).getD v < (1 : Rat) / 10 then 16
       else ((scanTwoFloats (t.drop 4)).2).getD v))
    (fun p tok h => stageToken_ram_total_gb_match p tok h)
    (fun p tok h => stageToken_ram_total_gb_skip p tok h) toks (zeroStats, 0)

theorem staged_net_type (toks : List (List Nat)) :
    (stageTokens toks).1.net_type
      = overwriteFold (fun t _ => (t.drop 4).take 15) zeroStats.net_type
          (toks.filter (fun t => keyMatch NET_key t)) := by
  exact stageFold_proj (fun s => s.net_type) NET_key (fun t _ => (t.drop 4).take 15)
    (fun p tok h => stageToken_net_type_match p tok h)
    (fun p tok h => stageToken_net_type_skip p tok h) toks (zeroStats, 0)

theorem staged_net_speed (toks : List (List Nat)) :
    (stageTokens toks).1.net_speed
      = overwriteFold (fun t _ => (t.drop 6).take 15) zeroStats.net_speed
          (toks.filter (fun t => keyMatch SPEED_key t)) := by
  exact stageFold_proj (fun s => s.net_speed) SPEED_key (fun t _ => (t.drop 6).take 15)
    (fun p tok h => stageToken_net_speed_match p tok h)
    (fun p tok h => stageToken_net_speed_skip p tok h) toks (zeroStats, 0)

theorem staged_net_down_mbps (toks : List (List Nat)) :
    (stageTokens toks).1.net_down_mbps
      = overwriteFold (fun t _ => c_atof (t.drop 5)) zeroStats.net_down_mbps
          (toks.filter (fun t => keyMatch DOWN_key t)) := by
  exact stageFold_proj (fun s => s.net_down_mbps) DOWN_key (fun t _ => c_atof (t.drop 5))
    (fun p tok h => stageToken_net_down_mbps_match p tok h)
    (fun p tok h => stageToken_net_down_mbps_skip p tok h) toks (zeroStats, 0)

theorem staged_net_up_mbps (toks : List (List Nat)) :
    (stageTokens toks).1.net_up_mbps
      = overwriteFold (fun t _ => c_atof (t.drop 3)) zeroStats.net_up_mbps
          (toks.filter (fun t => keyMatch UP_key t)) := by
  exact stageFold_proj (fun s => s.net_up_mbps) UP_key (fun t _ => c_atof (t.drop 3))
    (fun p tok h => stageToken_net_up_mbps_match p tok h)
    (fun p tok h => stageToken_net_up_mbps_skip p tok h) toks (zeroStats, 0)

/-- C1 (refuting evidence): a valid `IMG_BEGIN` whose buffer allocation
fails is an exit path that does NOT return the session to `Idle`.
After a successful `IMG_BEGIN:0:16` the session is `Receiving` with an
allocated buffer; a second, fully validated `IMG_BEGIN:1:16` whose
`heap_caps_malloc` returns `NULL` frees the old buffer (once) but
leaves `upload_ctx.state == IMG_UPLOAD_RECEIVING` with
`upload_ctx.buffer == NULL` — a `Receiving` session without a scratch
buffer, contradicting the claimed invariant. -/
theorem img_begin_nomem_leaves_receiving_without_buffer :
    (handle_img_begin initialUploadCtx (some (0, 16)) true).ctx.state = .receiving
    ∧ (handle_img_begin initialUploadCtx (some (0, 16)) true).ctx.buffer.isSome = true
    ∧ (handle_img_begin
         (handle_img_begin initialUploadCtx (some (0, 16)) true).ctx
         (some (1, 16)) false).resp = .errNomem
    ∧ (handle_img_begin
         (handle_img_begin initialUploadCtx (some (0, 16)) true).ctx
         (some (1, 16)) false).frees = 1
    ∧ (handle_img_begin
         (handle_img_begin initialUploadCtx (some (0, 16)) true).ctx
         (some (1, 16)) false).ctx.state = .receiving
    ∧ (handle_img_begin
         (handle_img_begin initialUploadCtx (some (0, 16)) true).ctx
         (some (1, 16)) false).ctx.buffer = none := by
  decide

/-- C4: `IMG_DATA` is accepted only in `Receiving`; every rejected
chunk (wrong state, parse failure, offset ≠ `received_size`, odd hex
length, or a chunk that would advance `received_size` past
`expected_size`) produces the corresponding error response and leaves
the whole session — state, sizes, buffer and running CRC — unchanged
and frees nothing; an accepted chunk responds `IMG_OK:DATA`, writes the
decoded bytes into the buffer at offset `received_size`, folds exactly
those bytes into the running CRC32, and advances `received_size` by the
decoded byte count (`hex length / 2`). -/
theorem handle_img_data_cases (ctx : UploadCtx) (parsed : Option (Nat × List Nat)) :
    (ctx.state ≠ .receiving → handle_img_data ctx parsed = ⟨ctx, .errNobegin, 0⟩)
    ∧ (ctx.state = .receiving → parsed = none →
        handle_img_data ctx parsed = ⟨ctx, .errParse, 0⟩)
    ∧ (∀ off hex, ctx.state = .receiving → parsed = some (off, hex) →
        (off ≠ ctx.received_size →
            handle_img_data ctx parsed = ⟨ctx, .errOffset ctx.received_size, 0⟩)
        ∧ (off = ctx.received_size → hex.length % 2 ≠ 0 →
            handle_img_data ctx parsed = ⟨ctx, .errHexlen, 0⟩)
        ∧ (off = ctx.received_size → hex.length % 2 = 0 →
            ctx.expected_size < ctx.received_size + hex.length / 2 →
            handle_img_data ctx parsed = ⟨ctx, .errOverflow, 0⟩)
        ∧ (off = ctx.received_size → hex.length % 2 = 0 →
            ctx.received_size + hex.length / 2 ≤ ctx.expected_size →
            (handle_img_data ctx parsed).resp = .okData (ctx.received_size + hex.length / 2)
            ∧ (handle_img_data ctx parsed).frees = 0
            ∧ (handle_img_data ctx parsed).ctx.state = .receiving
            ∧ (handle_img_data ctx parsed).ctx.expected_size = ctx.expected_size
            ∧ (handle_img_data ctx parsed).ctx.slot = ctx.slot
            ∧ (handle_img_data ctx parsed).ctx.received_size
                = ctx.received_size + hex.length / 2
            ∧ (handle_img_data ctx parsed).ctx.crc32
                = crc32_update ctx.crc32 (hexDecode hex)
            ∧ ∀ buf, ctx.buffer = some buf →
                (handle_img_data ctx parsed).ctx.buffer =
                  some (buf.take ctx.received_size ++ hexDecode hex ++
                        buf.drop (ctx.received_size + hex.length / 2)))) := by
  refine ⟨?_, ?_, ?_⟩
  · intro h
    simp [handle_img_data, h]
  · intro h hp
    simp [handle_img_data, h, hp]
  · intro off hex h hp
    refine ⟨?_, ?_, ?_, ?_⟩
    · intro hoff
      simp [handle_img_data, h, hp, hoff]
    · intro hoff hodd
      simp [handle_img_data, h, hp, hoff, hodd]
    · intro hoff heven hover
      simp [handle_img_data, h, hp, hoff, heven, hover]
    · intro hoff heven hfit
      have hnov : ¬ (ctx.received_size + hex.length / 2 > ctx.expected_size) := by omega
      refine ⟨?_, ?_, ?_, ?_, ?_, ?_, ?_, ?_⟩ <;>
        simp [handle_img_data, h, hp, hoff, heven, hnov, writeBytesAt, hexDecode_length]
      intro buf hbuf
      simp [hbuf]

/-- Witness for `handle_img_data_cases`: a concrete accepted chunk
`IMG_DATA:0:4142` into a fresh 2-byte session writes bytes `[0x41,
0x42]` and advances `received_size` to 2. -/
theorem handle_img_data_cases_witness :
    (handle_img_data
        { state := .receiving, slot := 0, expected_size := 2,
          received_size := 0, buffer := some [0, 0], crc32 := 0 }
        (some (0, [52, 49, 52, 50]))).resp = .okData 2
    ∧ (handle_img_data
        { state := .receiving, slot := 0, expected_size := 2,
          received_size := 0, buffer := some [0, 0], crc32 := 0 }
        (some (0, [52, 49, 52, 50]))).ctx.buffer = some [65, 66] := by
  have h := (handle_img_data_cases
      { state := .receiving, slot := 0, expected_size := 2,
        received_size := 0, buffer := some [0, 0], crc32 := 0 }
      (some (0, [52, 49, 52, 50]))).2.2 0 [52, 49, 52, 50] rfl rfl
  have ha := h.2.2.2 rfl (by decide) (by decide)
  refine ⟨ha.1, ?_⟩
  have hb := ha.2.2.2.2.2.2.2 [0, 0] rfl
  rw [hb]
  decide

/-- C2: telemetry is committed all-or-nothing. If fewer than
`MIN_FIELDS` recognized fields are found in a line, the shared
`TelemetryFrame` and the staleness clock are bit-for-bit unchanged.
If at least `MIN_FIELDS` are found (any real frame line has length
≥ 5), the shared state is replaced wholesale by the staged frame and
the clock is set to `now` — strictly increasing whenever time has
advanced since the last commit. Each recognized field of the staged
frame equals the decoded value of the corresponding `KEY:` token(s) of
the input (the last occurrence winning; the `%f/%f` fields keep the
previous staged value for targets `sscanf` did not assign; the RAM
total is floored to 16 when ≈0), and a field with no token keeps its
zero-initialised default. -/
theorem parse_pc_data_all_or_nothing (line : List Nat) (sh : SharedTelemetry) (now : Nat) :
    (fieldsOf line < MIN_FIELDS → parse_pc_data line sh now true = sh)
    ∧ (MIN_FIELDS ≤ fieldsOf line → 5 ≤ line.length →
        parse_pc_data line sh now true = { stats := stagedOf line, last_data_ms := now }
        ∧ (sh.last_data_ms < now →
            sh.last_data_ms < (parse_pc_data line sh now true).last_data_ms))
    ∧ (stagedOf line).cpu_percent = (match (keyToks CPU_key line).getLast? with
        | some t => toInt16 (c_atoi (t.drop 4))
        | none => 0)
    ∧ (stagedOf line).cpu_temp = (match (keyToks CPUT_key line).getLast? with
        | some t => c_atof (t.drop 5)
        | none => 0)
    ∧ (stagedOf line).gpu_percent = (match (keyToks GPU_key line).getLast? with
        | some t => toInt16 (c_atoi (t.drop 4))
        | none => 0)
    ∧ (stagedOf line).gpu_temp = (match (keyToks GPUT_key line).getLast? with
        | some t => c_atof (t.drop 5)
        | none => 0)
    ∧ (stagedOf line).gpu_vram_used
        = overwriteFold (fun t v => ((scanTwoFloats (t.drop 5)).1).getD v) 0
            (keyToks VRAM_key line)
    ∧ (stagedOf line).gpu_vram_total
        = overwriteFold (fun t v => ((scanTwoFloats (t.drop 5)).2).getD v) 0
            (keyToks VRAM_key line)
    ∧ (stagedOf line).ram_used_gb
        = overwriteFold (fun t v => ((scanTwoFloats (t.drop 4)).1).getD v) 0
            (keyToks RAM_key line)
    ∧ (stagedOf line).ram_total_gb
        = overwriteFold (fun t v =>
            (if ((scanTwoFloats (t.drop 4)).2).getD v < (1 : Rat) / 10 then 16
             else ((scanTwoFloats (t.drop 4)).2).getD v)) 0
            (keyToks RAM_key line)
    ∧ (stagedOf line).net_type = (match (keyToks NET_key line).getLast? with
        | some t => (t.drop 4).take 15
        | none => [])
    ∧ (stagedOf line).net_speed = (match (keyToks SPEED_key line).getLast? with
        | some t => (t.drop 6).take 15
        | none => [])
    ∧ (stagedOf line).net_down_mbps = (match (keyToks DOWN_key line).getLast? with
        | some t => c_atof (t.drop 5)
        | none => 0)
    ∧ (stagedOf line).net_up_mbps = (match (keyToks UP_key line).getLast? with
        | some t => c_atof (t.drop 3)
        | none => 0) := by
  refine ⟨?_, ?_, ?_, ?_, ?_, ?_, ?_, ?_, ?_, ?_, ?_, ?_, ?_, ?_⟩
  · intro h
    simp only [fieldsOf, MIN_FIELDS] at h
    simp only [parse_pc_data, MIN_FIELDS]
    split_ifs with h1 h2
    · rfl
    · omega
    · rfl
  · intro h hlen
    simp only [fieldsOf, MIN_FIELDS] at h
    have hne : ¬line.length < 5 := by omega
    constructor
    · simp only [parse_pc_data, MIN_FIELDS, stagedOf, if_neg hne, if_pos h, if_pos]
    · intro hlt
      simp only [parse_pc_data, MIN_FIELDS, if_neg hne, if_pos h, if_pos]
      exact hlt
  · rw [show stagedOf line = (stageTokens (strtokComma line)).1 from rfl,
      staged_cpu_percent, overwriteFold_const]
    rfl
  · rw [show stagedOf line = (stageTokens (strtokComma line)).1 from rfl,
      staged_cpu_temp, overwriteFold_const]
    rfl
  · rw [show stagedOf line = (stageTokens (strtokComma line)).1 from rfl,
      staged_gpu_percent, overwriteFold_const]
    rfl
  · rw [show stagedOf line = (stageTokens (strtokComma line)).1 from rfl,
      staged_gpu_temp, overwriteFold_const]
    rfl
  · exact staged_gpu_vram_used (strtokComma line)
  · exact staged_gpu_vram_total (strtokComma line)
  · exact staged_ram_used_gb (strtokComma line)
  · exact staged_ram_total_gb (strtokComma line)
  · rw [show stagedOf line = (stageTokens (strtokComma line)).1 from rfl,
      staged_net_type, overwriteFold_const]
    rfl
  · rw [show stagedOf line = (stageTokens (strtokComma line)).1 from rfl,
      staged_net_speed, overwriteFold_const]
    rfl
  · rw [show stagedOf line = (stageTokens (strtokComma line)).1 from rfl,
      staged_net_down_mbps, overwriteFold_const]
    rfl
  · rw [show stagedOf line = (stageTokens (strtokComma line)).1 from rfl,
      staged_net_up_mbps, overwriteFold_const]
    rfl

/-- Witness for `parse_pc_data_all_or_nothing`: the concrete line
`CPU:1,GPU:2,NET:L,UP:3,DOWN:4` reaches the 5-field threshold, is
committed wholesale, and strictly advances the staleness clock. -/
theorem parse_pc_data_all_or_nothing_witness :
    MIN_FIELDS ≤ fieldsOf (strBytes "CPU:1,GPU:2,NET:L,UP:3,DOWN:4")
    ∧ parse_pc_data (strBytes "CPU:1,GPU:2,NET:L,UP:3,DOWN:4")
        { stats := zeroStats, last_data_ms := 0 } 7 true
        = { stats := stagedOf (strBytes "CPU:1,GPU:2,NET:L,UP:3,DOWN:4"),
            last_data_ms := 7 }
    ∧ (0 : Nat) < (parse_pc_data (strBytes "CPU:1,GPU:2,NET:L,UP:3,DOWN:4")
        { stats := zeroStats, last_data_ms := 0 } 7 true).last_data_ms := by
  have h := parse_pc_data_all_or_nothing (strBytes "CPU:1,GPU:2,NET:L,UP:3,DOWN:4")
    { stats := zeroStats, last_data_ms := 0 } 7
  have hc := h.2.1 (by decide) (by decide)
  exact ⟨by decide, hc.1, hc.2 (by decide)⟩

/-- C7 (evidence): the stats-lock acquisition of the telemetry commit
is bounded (100 ms) in the `usb_serial_comm.c` revision but unbounded
(`portMAX_DELAY`) in the `main_lvgl.c` revision; and whenever the
bounded wait times out (`lockOk = false`), `parse_pc_data` leaves the
shared frame and the staleness clock untouched — the commit is skipped,
not retried. -/
theorem stats_lock_wait_bounded_vs_unbounded :
    usb_parse_stats_wait = .ticks 100
    ∧ usb_parse_stats_wait.isBounded = true
    ∧ lvgl_parse_stats_wait = .maxDelay
    ∧ lvgl_parse_stats_wait.isBounded = false
    ∧ ∀ (line : List Nat) (sh : SharedTelemetry) (now : Nat),
        parse_pc_data line sh now false = sh := by
  refine ⟨rfl, rfl, rfl, rfl, ?_⟩
  intro line sh now
  simp only [parse_pc_data]
  split_ifs with h1 h2 h3 <;> first | rfl | exact h3.elim

theorem framerFeed_append (size : Nat) (st : LineFramer) (a b : List Nat) :
    framerFeed size st (a ++ b)
      = ((framerFeed size (framerFeed size st a).1 b).1,
         (framerFeed size st a).2 ++ (framerFeed size (framerFeed size st a).1 b).2) := by
  induction a generalizing st with
  | nil => simp [framerFeed]
  | cons c cs ih =>
      simp only [List.cons_append, framerFeed]
      rw [show cs.append b = cs ++ b from rfl, ih]
      simp [List.append_assoc]

theorem framerFeedChunks_eq_flatten (size : Nat) (st : LineFramer)
    (chunks : List (List Nat)) :
    framerFeedChunks size st chunks = framerFeed size st chunks.flatten := by
  induction chunks generalizing st with
  | nil => simp [framerFeedChunks, framerFeed]
  | cons ch chs ih =>
      simp only [framerFeedChunks, List.flatten_cons]
      rw [framerFeed_append, ih]

theorem framerFeed_delims (size : Nat) (l : List Nat)
    (h : ∀ c ∈ l, c = 10 ∨ c = 13) :
    framerFeed size framerInit l = (framerInit, []) := by
  induction l with
  | nil => rfl
  | cons c cs ih =>
      have hc := h c (by simp)
      simp only [framerFeed]
      have hstep : framerStep size framerInit c = (framerInit, none) := by
        rcases hc with rfl | rfl <;> rfl
      rw [hstep, ih (fun x hx => h x (by simp [hx]))]
      simp

theorem framerFeed_accum (size : Nat) (l : List Nat) :
    ∀ b : List Nat, (b ++ l).length ≤ size - 1 →
      (∀ c ∈ l, ¬(c = 10 ∨ c = 13)) →
      framerFeed size ⟨b, false⟩ l = (⟨b ++ l, false⟩, []) := by
  induction l with
  | nil => intro b _ _; simp [framerFeed]
  | cons c cs ih =>
      intro b hlen hnd
      have hc : ¬(c = 10 ∨ c = 13) := hnd c (by simp)
      push_neg at hc
      have hb : b.length < size - 1 := by
        simp [List.length_append] at hlen; omega
      simp only [framerFeed]
      have hstep : framerStep size ⟨b, false⟩ c = (⟨b ++ [c], false⟩, none) := by
        simp [framerStep, hb, hc.1, hc.2]
      rw [hstep]
      have hrec := ih (b ++ [c])
        (by simpa [List.append_assoc] using hlen)
        (fun x hx => hnd x (by simp [hx]))
      simp only [List.append_assoc, List.singleton_append] at hrec
      rw [hrec]
      simp

theorem framerFeed_discard_nondelim (size : Nat) (l : List Nat) (b : List Nat)
    (h : ∀ c ∈ l, ¬(c = 10 ∨ c = 13)) :
    framerFeed size ⟨b, true⟩ l = (⟨b, true⟩, []) := by
  induction l with
  | nil => rfl
  | cons c cs ih =>
      have hc := h c (by simp)
      push_neg at hc
      simp only [framerFeed]
      have hstep : framerStep size ⟨b, true⟩ c = (⟨b, true⟩, none) := by
        simp [framerStep, hc.1, hc.2]
      rw [hstep, ih (fun x hx => h x (by simp [hx]))]
      simp

theorem framerFeed_overflow (size : Nat) (l : List Nat) :
    ∀ b : List Nat, (∀ c ∈ l, ¬(c = 10 ∨ c = 13)) → b.length ≤ size - 1 →
      size - 1 < (b ++ l).length →
      ∃ b', framerFeed size ⟨b, false⟩ l = (⟨b', true⟩, []) := by
  induction l with
  | nil =>
      intro b _ hble hov
      simp at hov
      omega
  | cons c cs ih =>
      intro b hnd hble hov
      have hc : ¬(c = 10 ∨ c = 13) := hnd c (by simp)
      push_neg at hc
      by_cases hb : b.length < size - 1
      · have hstep : framerStep size ⟨b, false⟩ c = (⟨b ++ [c], false⟩, none) := by
          simp [framerStep, hb, hc.1, hc.2]
        obtain ⟨b', hb'⟩ := ih (b ++ [c])
          (fun x hx => hnd x (by simp [hx]))
          (by simp; omega)
          (by simp at hov ⊢; omega)
        refine ⟨b', ?_⟩
        simp only [framerFeed]
        rw [hstep, hb']
        simp
      · have hstep : framerStep size ⟨b, false⟩ c = (⟨b, true⟩, none) := by
          simp [framerStep, hb, hc.1, hc.2]
        refine ⟨b, ?_⟩
        simp only [framerFeed]
        rw [hstep, framerFeed_discard_nondelim size cs b
          (fun x hx => hnd x (by simp [hx]))]
        simp

theorem framerFeed_term_from_line (size : Nat) (l term : List Nat)
    (hl : l ≠ []) (ht : term ≠ []) (hd : ∀ c ∈ term, c = 10 ∨ c = 13) :
    framerFeed size ⟨l, false⟩ term = (framerInit, [l]) := by
  cases term with
  | nil => exact absurd rfl ht
  | cons d ds =>
      have hdd := hd d (by simp)
      have hlpos : l.length > 0 := List.length_pos.mpr hl
      simp only [framerFeed]
      have hstep : framerStep size ⟨l, false⟩ d = (framerInit, some l) := by
        rcases hdd with rfl | rfl <;> simp [framerStep, framerInit, hlpos]
      rw [hstep, framerFeed_delims size ds (fun x hx => hd x (by simp [hx]))]
      simp

theorem framerFeed_term_from_discard (size : Nat) (b term : List Nat)
    (ht : term ≠ []) (hd : ∀ c ∈ term, c = 10 ∨ c = 13) :
    framerFeed size ⟨b, true⟩ term = (framerInit, []) := by
  cases term with
  | nil => exact absurd rfl ht
  | cons d ds =>
      have hdd := hd d (by simp)
      simp only [framerFeed]
      have hstep : framerStep size ⟨b, true⟩ d = (framerInit, none) := by
        rcases hdd with rfl | rfl <;> rfl
      rw [hstep, framerFeed_delims size ds (fun x hx => hd x (by simp [hx]))]
      simp

theorem framerFeed_blocks (size : Nat) (blocks : List (List Nat × List Nat))
    (hblocks : ∀ b ∈ blocks, b.1 ≠ [] ∧ b.1.length ≤ size - 1
        ∧ (∀ c ∈ b.1, ¬(c = 10 ∨ c = 13)) ∧ b.2 ≠ []
        ∧ (∀ c ∈ b.2, c = 10 ∨ c = 13)) :
    framerFeed size framerInit (mkStream blocks) = (framerInit, blocks.map (·.1)) := by
  induction blocks with
  | nil => rfl
  | cons bl bls ih =>
      obtain ⟨hne, hlen, hnd, htne, htd⟩ := hblocks bl (by simp)
      have hstream : mkStream (bl :: bls) = (bl.1 ++ bl.2) ++ mkStream bls := by
        simp [mkStream]
      rw [hstream, framerFeed_append, framerFeed_append]
      have h1 : framerFeed size framerInit bl.1 = (⟨bl.1, false⟩, []) := by
        have := framerFeed_accum size bl.1 [] (by simpa using hlen) hnd
        simpa [framerInit] using this
      rw [h1, framerFeed_term_from_line size bl.1 bl.2 hne htne htd,
        ih (fun b hb => hblocks b (by simp [hb]))]
      simp

/-- C5: for every byte sequence consisting of (possibly) leading
delimiters followed by `k` well-formed delimiter-terminated lines —
each nonempty, free of delimiter bytes, and no longer than the line
capacity `size - 1` — and for every way of splitting that sequence
into successive read chunks, the framer delivers exactly the `k` line
contents, in order, with no duplicate and no extra bytes, and ends in
its initial state. Consecutive delimiters (such as `\r\n`) produce no
empty line. -/
theorem framer_chunked_exact (size : Nat) (lead : List Nat)
    (blocks : List (List Nat × List Nat)) (chunks : List (List Nat))
    (hlead : ∀ c ∈ lead, c = 10 ∨ c = 13)
    (hblocks : ∀ b ∈ blocks, b.1 ≠ [] ∧ b.1.length ≤ size - 1
        ∧ (∀ c ∈ b.1, ¬(c = 10 ∨ c = 13)) ∧ b.2 ≠ []
        ∧ (∀ c ∈ b.2, c = 10 ∨ c = 13))
    (hchunks : chunks.flatten = lead ++ mkStream blocks) :
    framerFeedChunks size framerInit chunks = (framerInit, blocks.map (·.1)) := by
  rw [framerFeedChunks_eq_flatten, hchunks, framerFeed_append,
    framerFeed_delims size lead hlead, framerFeed_blocks size blocks hblocks]
  simp

/-- Witness for `framer_chunked_exact`: `"A\r\nBC\n"` split into the
chunks `"A\r"`, `"\nB"`, `"C\n"` yields exactly the lines `"A"` and
`"BC"` (the `\r\n` pair produces no empty line). -/
theorem framer_chunked_exact_witness :
    framerFeedChunks 16 framerInit [[65, 13], [10, 66], [67, 10]]
      = (framerInit, [[65], [66, 67]]) := by
  have h := framer_chunked_exact 16 [] [([65], [13, 10]), ([66, 67], [10])]
    [[65, 13], [10, 66], [67, 10]]
    (by decide) (by decide) (by decide)
  simpa using h

/-- C6: an oversized line (longer than the capacity `size - 1`, so the
framer enters discard mode part-way through) followed by a delimiter
run, a valid short line and another delimiter run yields exactly one
delivered line — the short one, byte-for-byte intact; the oversized
line's accumulated half is dropped, no truncated line is delivered,
and the framer ends back in its initial state. -/
theorem framer_overflow_recovery (size : Nat) (ov term1 s term2 : List Nat)
    (hov_nd : ∀ c ∈ ov, ¬(c = 10 ∨ c = 13))
    (hov_len : size - 1 < ov.length)
    (ht1 : term1 ≠ []) (ht1d : ∀ c ∈ term1, c = 10 ∨ c = 13)
    (hs_ne : s ≠ []) (hs_len : s.length ≤ size - 1)
    (hs_nd : ∀ c ∈ s, ¬(c = 10 ∨ c = 13))
    (ht2 : term2 ≠ []) (ht2d : ∀ c ∈ term2, c = 10 ∨ c = 13) :
    framerFeed size framerInit (ov ++ term1 ++ s ++ term2) = (framerInit, [s]) := by
  obtain ⟨b', hb'⟩ := framerFeed_overflow size ov [] hov_nd (by simp)
    (by simpa using hov_len)
  have hov_run : framerFeed size framerInit ov = (⟨b', true⟩, []) := by
    simpa [framerInit] using hb'
  have hs_run : framerFeed size framerInit s = (⟨s, false⟩, []) := by
    have := framerFeed_accum size s [] (by simpa using hs_len) hs_nd
    simpa [framerInit] using this
  have hassoc : ov ++ term1 ++ s ++ term2 = ov ++ (term1 ++ (s ++ term2)) := by
    simp [List.append_assoc]
  rw [hassoc, framerFeed_append, hov_run]
  simp only
  rw [framerFeed_append, framerFeed_term_from_discard size b' term1 ht1 ht1d]
  simp only
  rw [framerFeed_append, hs_run]
  simp only
  rw [framerFeed_term_from_line size s term2 hs_ne ht2 ht2d]
  simp

/-- Witness for `framer_overflow_recovery`: with line-buffer size 4
(capacity 3), the oversized line `"AAAA"` followed by `"\n"`, the
short line `"B"` and `"\r"` delivers exactly `"B"`. -/
theorem framer_overflow_recovery_witness :
    framerFeed 4 framerInit [65, 65, 65, 65, 10, 66, 13] = (framerInit, [[66]]) := by
  have h := framer_overflow_recovery 4 [65, 65, 65, 65] [10] [66] [13]
    (by decide) (by decide) (by decide) (by decide) (by decide) (by decide)
    (by decide) (by decide) (by decide)
  simpa using h

theorem computeUiMode_screensaver_iff (e : Nat) :
    computeUiMode e = .screensaver ↔ SCREENSAVER_TIMEOUT_MS < e := by
  simp only [computeUiMode]
  split_ifs with h1 h2 <;> simp_all

/-- C8: staleness drives the UI mode. The two thresholds satisfy
`stale < screensaver`; the mode computed purely from the elapsed time
moves only forward through Live → Stale → Screensaver as elapsed
grows; any elapsed value within the stale threshold (in particular the
one display period after a successful commit resets the clock) yields
Live; and one `display_update_task` iteration performs the screensaver
show (resp. hide) action exactly when the render lock was obtained and
the freshly computed mode is Screensaver (resp. not Screensaver) while
the previous tick's state differs — otherwise no show/hide call is
made. -/
theorem staleness_screensaver_machine :
    STALE_DATA_THRESHOLD_MS < SCREENSAVER_TIMEOUT_MS
    ∧ (∀ e1 e2 : Nat, e1 ≤ e2 →
        modeRank (computeUiMode e1) ≤ modeRank (computeUiMode e2))
    ∧ (∀ e : Nat, e ≤ STALE_DATA_THRESHOLD_MS → computeUiMode e = .live)
    ∧ DISPLAY_UPDATE_MS ≤ STALE_DATA_THRESHOLD_MS
    ∧ (∀ (lockOk active : Bool) (now last : Nat),
        ((display_tick lockOk now last active).ssAction = some true
          ↔ (lockOk = true ∧ computeUiMode (elapsed32 now last) = .screensaver
              ∧ active = false))
        ∧ ((display_tick lockOk now last active).ssAction = some false
          ↔ (lockOk = true ∧ computeUiMode (elapsed32 now last) ≠ .screensaver
              ∧ active = true))
        ∧ (display_tick lockOk now last active).active
            = (if lockOk = true then
                 decide (computeUiMode (elapsed32 now last) = .screensaver)
               else active)) := by
  refine ⟨by decide, ?_, ?_, by decide, ?_⟩
  · intro e1 e2 h
    simp only [computeUiMode, SCREENSAVER_TIMEOUT_MS, STALE_DATA_THRESHOLD_MS]
    split_ifs <;> simp [modeRank] <;> omega
  · intro e h
    simp only [computeUiMode, SCREENSAVER_TIMEOUT_MS, STALE_DATA_THRESHOLD_MS] at *
    rw [if_neg (by omega), if_neg (by omega)]
  · intro lockOk active now last
    cases lockOk with
    | false => simp [display_tick]
    | true =>
        by_cases hs : SCREENSAVER_TIMEOUT_MS < elapsed32 now last <;>
          cases active <;>
            simp [display_tick, computeUiMode_screensaver_iff, hs, Nat.lt_irrefl]

/-- Witness for `staleness_screensaver_machine`: elapsed 1000 ms is no
further along the progression than 31000 ms, 100 ms after a commit the
mode is Live, and a tick at 40 s without data while the screensaver is
still hidden issues the show action. -/
theorem staleness_screensaver_machine_witness :
    modeRank (computeUiMode 1000) ≤ modeRank (computeUiMode 31000)
    ∧ computeUiMode 100 = .live
    ∧ (display_tick true 40000 0 false).ssAction = some true := by
  have h := staleness_screensaver_machine
  refine ⟨h.2.1 1000 31000 (by decide), h.2.2.1 100 (by decide), ?_⟩
  exact ((h.2.2.2.2 true false 40000 0).1).mpr ⟨rfl, by decide, rfl⟩

theorem firstClaiming_spec :
    ∀ (handlers : List (List Nat → Bool)) (line : List Nat) (i : Nat),
      firstClaiming handlers line = some i →
      ∃ h, handlers[i]? = some h ∧ h line = true
        ∧ ∀ j, j < i → ∀ hj, handlers[j]? = some hj → hj line = false := by
  intro handlers
  induction handlers with
  | nil => intro line i h; simp [firstClaiming] at h
  | cons hd tl ih =>
      intro line i h
      simp only [firstClaiming] at h
      by_cases hc : hd line
      · rw [if_pos hc] at h
        obtain rfl : (0 : Nat) = i := by simpa using h
        exact ⟨hd, by simp, hc, fun j hj => absurd hj (Nat.not_lt_zero j)⟩
      · rw [if_neg hc] at h
        obtain ⟨i', hi', rfl⟩ : ∃ i', firstClaiming tl line = some i' ∧ i = i' + 1 := by
          cases hfc : firstClaiming tl line with
          | none => rw [hfc] at h; simp at h
          | some k => rw [hfc] at h; simp at h; exact ⟨k, rfl, h.symm⟩
        obtain ⟨hh, hget, hclaim, hprev⟩ := ih line i' hi'
        refine ⟨hh, by simpa using hget, hclaim, ?_⟩
        intro j hj hjh hgetj
        cases j with
        | zero =>
            simp at hgetj
            rw [← hgetj]
            simpa using hc
        | succ j' =>
            exact hprev j' (by omega) hjh (by simpa using hgetj)

theorem firstClaiming_none_spec :
    ∀ (handlers : List (List Nat → Bool)) (line : List Nat),
      firstClaiming handlers line = none → ∀ h ∈ handlers, h line = false := by
  intro handlers
  induction handlers with
  | nil => intro line _ h hmem; simp at hmem
  | cons hd tl ih =>
      intro line hnone h hmem
      simp only [firstClaiming] at hnone
      by_cases hc : hd line
      · rw [if_pos hc] at hnone; simp at hnone
      · rw [if_neg hc] at hnone
        rcases List.mem_cons.mp hmem with rfl | hmem'
        · simpa using hc
        · cases hfc : firstClaiming tl line with
          | some k => rw [hfc] at hnone; simp at hnone
          | none => exact ih line hfc h hmem'

/-- C9: every completed line is consumed by exactly one of three
stages, tried in this order: (a) exact match against `WHO_ARE_YOU?`,
answered with the identity string that carries the identity hash;
(b) the registered handlers in registration order, stopping at the
first one that claims the line; (c) only if no handler claimed it,
fallback to the telemetry parser. Registration
(`usb_serial_register_handler`) appends in call order while the table
has room. -/
theorem dispatch_line_order (handlers : List (List Nat → Bool))
    (hash line : List Nat) :
    (line = WHO_ARE_YOU →
        dispatch_line handlers hash line
          = (.handshake, some (strBytes "SCARAB_CLIENT_OK|H:" ++ hash ++ [10])))
    ∧ (line ≠ WHO_ARE_YOU → ∀ i, firstClaiming handlers line = some i →
        dispatch_line handlers hash line = (.handler i, none)
        ∧ ∃ h, handlers[i]? = some h ∧ h line = true
            ∧ ∀ j, j < i → ∀ hj, handlers[j]? = some hj → hj line = false)
    ∧ (line ≠ WHO_ARE_YOU → firstClaiming handlers line = none →
        dispatch_line handlers hash line = (.telemetry, none)
        ∧ ∀ h ∈ handlers, h line = false)
    ∧ (∀ h, handlers.length < MAX_CMD_HANDLERS →
        usb_serial_register_handler handlers h = handlers ++ [h]) := by
  refine ⟨?_, ?_, ?_, ?_⟩
  · intro h
    simp [dispatch_line, h]
  · intro hne i hfc
    refine ⟨by simp [dispatch_line, hne, hfc], firstClaiming_spec handlers line i hfc⟩
  · intro hne hfc
    exact ⟨by simp [dispatch_line, hne, hfc], firstClaiming_none_spec handlers line hfc⟩
  · intro h hlen
    simp [usb_serial_register_handler, hlen]

/-- Witness for `dispatch_line_order`: with two registered handlers
(claiming `"IMG_A"` and `"PING"` respectively), the line `"PING"` is
consumed by handler 1 (handler 0 declined), and `"WHO_ARE_YOU?"` is
answered by the handshake with the hash embedded in the reply. -/
theorem dispatch_line_order_witness :
    dispatch_line
        [fun l => decide (l = strBytes "IMG_A"), fun l => decide (l = strBytes "PING")]
        (strBytes "DEADBEEF") (strBytes "PING")
      = (.handler 1, none)
    ∧ dispatch_line
        [fun l => decide (l = strBytes "IMG_A"), fun l => decide (l = strBytes "PING")]
        (strBytes "DEADBEEF") WHO_ARE_YOU
      = (.handshake,
         some (strBytes "SCARAB_CLIENT_OK|H:" ++ strBytes "DEADBEEF" ++ [10])) := by
  constructor
  · exact ((dispatch_line_order
      [fun l => decide (l = strBytes "IMG_A"), fun l => decide (l = strBytes "PING")]
      (strBytes "DEADBEEF") (strBytes "PING")).2.1 (by decide) 1 (by decide)).1
  · exact (dispatch_line_order
      [fun l => decide (l = strBytes "IMG_A"), fun l => decide (l = strBytes "PING")]
      (strBytes "DEADBEEF") WHO_ARE_YOU).1 rfl

/-- C10: `ss_image_get_dsc` returns `NULL` exactly for an out-of-range
slot index (`slot ≥ SS_IMG_COUNT`); for every in-range slot it returns
a non-`NULL` descriptor — the loaded custom image's descriptor when
one is loaded (`loaded` set and pixel data present), otherwise the
compiled fallback descriptor of that slot. -/
theorem ss_image_get_dsc_spec (table : Fin 4 → SsLoadedImage) (slot : Nat) :
    (ss_image_get_dsc table slot = none ↔ SS_IMG_COUNT ≤ slot)
    ∧ (∀ h : slot < SS_IMG_COUNT,
        (((table ⟨slot, h⟩).loaded && (table ⟨slot, h⟩).data.isSome) = true →
          ss_image_get_dsc table slot = some (.customDsc ⟨slot, h⟩))
        ∧ (((table ⟨slot, h⟩).loaded && (table ⟨slot, h⟩).data.isSome) = false →
          ss_image_get_dsc table slot = some (.fallbackDsc ⟨slot, h⟩))) := by
  constructor
  · by_cases h : slot < SS_IMG_COUNT
    · simp only [ss_image_get_dsc, dif_pos h]
      constructor
      · intro hfalse
        split_ifs at hfalse
      · intro hge
        exact absurd h (by omega)
    · simp only [ss_image_get_dsc, dif_neg h]
      simp
      omega
  · intro h
    constructor <;> intro hc <;> simp [ss_image_get_dsc, h, hc]

/-- Witness for `ss_image_get_dsc_spec`: with nothing loaded, slot 7 is
out of range (`NULL`) and slot 1 yields its compiled fallback. -/
theorem ss_image_get_dsc_spec_witness :
    ss_image_get_dsc (fun _ => { loaded := false, data := none }) 7 = none
    ∧ ss_image_get_dsc (fun _ => { loaded := false, data := none }) 1
        = some (.fallbackDsc ⟨1, by omega⟩) := by
  constructor
  · exact (ss_image_get_dsc_spec (fun _ => { loaded := false, data := none }) 7).1.mpr
      (by decide)
  · exact ((ss_image_get_dsc_spec (fun _ => { loaded := false, data := none }) 1).2
      (by decide)).2 rfl

end PCMonitor
